import Mathlib

/-!
# Verification of the lyrics timestamping tool (`src/v2.py`)

Shallow embedding of the core logic of the Streamlit app `v2.py`:

* `format_time` and `create_srt` (the SubtitleCodec);
* the per-session recorder state (`st.session_state`: `timestamps`,
  `current_line`, `start_time`, `paused_time`, `is_paused`) together with the
  button handlers Start/Restart, Pause, Resume, Mark Timestamp, and the
  `st.data_editor` wholesale table replacement.

Modelling conventions:

* Python floats (wall-clock seconds from `time.time()`) are modelled as exact
  rationals `ℚ`; float rounding is idealized away.
* Python's `float.__mod__` with a positive modulus is `pymod a b = a - b*⌊a/b⌋`
  (result in `[0, b)`); `a // b` is `⌊a / b⌋`; `int x` truncates toward zero,
  which coincides with `Int.floor` on the non-negative quantities involved.
* The pandas DataFrame `st.session_state.timestamps` (columns
  `start`, `end`, `lyric`; rows are only ever appended at position
  `len(timestamps)`) is modelled as an ordered list of records; the positional
  row index models the DataFrame index used by `iterrows`.  The column `end` is
  rendered as the field `stop` (`end` is a Lean keyword).
* Each button handler is a function `Session → Session` parameterized by the
  `time.time()` reading `now` and, where the code consults them, by the loaded
  `lyrics` list and the presence of an uploaded `audio_file`.  Python
  truthiness of `st.session_state.start_time` (a `None`-or-float) is
  `truthy : Option ℚ → Bool`.
-/

/-- Python zero-padding `"{:0w}".format(n)` for a natural number `n`. -/
def padNat (w : Nat) (n : Nat) : String :=
  let s := toString n
  String.mk (List.replicate (w - s.length) '0') ++ s

/-- Python zero-padding `"{:0w}".format(n)` for an integer `n` (sign first,
then zero-fill to total width `w`, exactly as Python does). -/
def padInt (w : Nat) (n : Int) : String :=
  if n < 0 then "-" ++ padNat (w - 1) n.natAbs else padNat w n.toNat

/-- Python `a % b` on floats (exact-rational idealization), for `b ≠ 0`:
`a - b * ⌊a / b⌋`, the remainder with the sign of `b`. -/
def pymod (a b : ℚ) : ℚ := a - b * ⌊a / b⌋

/-- `format_time` from `v2.py` lines 16-22, rendered as
`f"{hrs:02}:{mins:02}:{secs:02},{ms:03}"` where
`hrs = int(seconds // 3600)`, `mins = int((seconds % 3600) // 60)`,
`secs = int(seconds % 60)`, `ms = int((seconds % 1) * 1000)`.
On every branch the value handed to `int` is either already an integer (a
floor-division result) or lies in `[0, 60)` resp. `[0, 1000)`, so Python's
toward-zero truncation is `Int.floor`. -/
def format_time (seconds : ℚ) : String :=
  padInt 2 ⌊seconds / 3600⌋ ++ ":" ++ padInt 2 ⌊pymod seconds 3600 / 60⌋ ++ ":" ++
    padInt 2 ⌊pymod seconds 60⌋ ++ "," ++ padInt 3 ⌊pymod seconds 1 * 1000⌋

/-- Modelled from the spec's words (for the refinement claim about
`format_time`): "Hours/minutes/seconds via integer division/modulo on the
whole-second part ...; Milliseconds = `floor(fractional_part * 1000)`", with
no rounding carry-over.  Here the whole-second part is `⌊seconds⌋₊` and the
fractional part is `seconds - ⌊seconds⌋₊`. -/
def format_time_spec (seconds : ℚ) : String :=
  padInt 2 (⌊seconds⌋₊ / 3600 : ℕ) ++ ":" ++ padInt 2 (⌊seconds⌋₊ % 3600 / 60 : ℕ) ++ ":" ++
    padInt 2 (⌊seconds⌋₊ % 60 : ℕ) ++ "," ++
    padInt 3 (⌊(seconds - (⌊seconds⌋₊ : ℚ)) * 1000⌋₊ : ℕ)

/-- One row of the `timestamps` DataFrame: columns `start`, `end` (field
`stop` here), `lyric` (`v2.py` line 105). -/
structure TimestampEntry where
  start : ℚ
  stop : ℚ
  lyric : String
deriving DecidableEq

/-- One SRT block emitted by the loop body of `create_srt` (`v2.py` line 51)
for the row with (positional) index `i`:
`f"{i+1}\n{format_time(start)} --> {format_time(end)}\n{text}\n\n"`. -/
def srtBlock (i : Nat) (row : TimestampEntry) : String :=
  toString (i + 1) ++ "\n" ++ format_time row.start ++ " --> " ++
    format_time row.stop ++ "\n" ++ row.lyric ++ "\n\n"

/-- `create_srt` from `v2.py` lines 44-52: fold over `timestamps.iterrows()`
accumulating `srt_output += block`.  Rows are modelled positionally (the app
only ever appends rows at index `len(timestamps)`, so `iterrows` yields the
positional index). -/
def create_srt (timestamps : List TimestampEntry) : String :=
  (timestamps.enum.foldl (fun srt_output p => srt_output ++ srtBlock p.1 p.2) "")

/-- The mutable per-session state of `v2.py` lines 104-113
(`st.session_state`). -/
structure Session where
  timestamps : List TimestampEntry
  current_line : Nat
  start_time : Option ℚ
  paused_time : Option ℚ
  is_paused : Bool
deriving DecidableEq

/-- The freshly initialized session state (`v2.py` lines 104-113):
empty table, `current_line = 0`, `start_time = None`, `paused_time = None`,
`is_paused = False`. -/
def freshSession : Session :=
  { timestamps := [], current_line := 0, start_time := none,
    paused_time := none, is_paused := false }

/-- Python truthiness of `st.session_state.start_time`: `None` and `0.0` are
falsy, every other float is truthy. -/
def truthy : Option ℚ → Bool
  | none => false
  | some x => decide (x ≠ 0)

/-- The Start / Restart handler (`v2.py` lines 122-128):
fires only when the button is clicked AND `lyrics` is non-empty AND an
`audio_file` is uploaded; it then resets the table to empty, `current_line`
to 0, `start_time` to `time.time()` and `is_paused` to `False`
(`paused_time` is left untouched).  Otherwise nothing happens. -/
def startButton (lyrics : List String) (audio_file : Bool) (now : ℚ)
    (s : Session) : Session :=
  if lyrics ≠ [] ∧ audio_file = true then
    { s with timestamps := [], current_line := 0, start_time := some now,
             is_paused := false }
  else s

/-- The Pause handler (`v2.py` lines 130-135): fires when
`st.session_state.start_time` is truthy; if not already paused it records
`paused_time = time.time()` and sets `is_paused = True`. -/
def pauseButton (now : ℚ) (s : Session) : Session :=
  if truthy s.start_time then
    if s.is_paused = false then
      { s with paused_time := some now, is_paused := true }
    else s
  else s

/-- The Resume handler (`v2.py` lines 137-142): fires when `is_paused`;
computes `offset = time.time() - paused_time`, shifts `start_time` forward by
`offset` and clears `is_paused`.  (In every state the app can reach with
`is_paused` set, both anchors are `some`; `getD 0` renders the unreachable
`None` arithmetic.) -/
def resumeButton (now : ℚ) (s : Session) : Session :=
  if s.is_paused = true then
    { s with start_time := some (s.start_time.getD 0 + (now - s.paused_time.getD 0)),
             is_paused := false }
  else s

/-- The Mark Timestamp handler (`v2.py` lines 145-152): rendered (hence
clickable) only when `start_time` is truthy, not paused, and
`current_line < len(lyrics)`; it appends the row
`[elapsed, elapsed + 2.0, lyrics[current_line]]` at position
`len(timestamps)` and increments `current_line`. -/
def markButton (lyrics : List String) (now : ℚ) (s : Session) : Session :=
  if truthy s.start_time ∧ s.is_paused = false ∧ s.current_line < lyrics.length then
    let elapsed := now - s.start_time.getD 0
    { s with
        timestamps := s.timestamps ++
          [{ start := elapsed, stop := elapsed + 2, lyric := lyrics.getD s.current_line "" }],
        current_line := s.current_line + 1 }
  else s

/-- The `st.data_editor` step (`v2.py` lines 157-160): when the table is
non-empty it is shown for free-form editing and replaced wholesale by the
edited copy `edited_df`; nothing else in the session state is touched. -/
def editTable (edited_df : List TimestampEntry) (s : Session) : Session :=
  if 0 < s.timestamps.length then { s with timestamps := edited_df } else s

/-- One user-interface event, for quantifying over arbitrary event
sequences against a fixed loaded `lyrics` list. -/
inductive Event where
  | startEv (audio_file : Bool) (now : ℚ)
  | pauseEv (now : ℚ)
  | resumeEv (now : ℚ)
  | markEv (now : ℚ)
  | editEv (edited_df : List TimestampEntry)
deriving DecidableEq

/-- Dispatch one event to its handler. -/
def applyEvent (lyrics : List String) : Event → Session → Session
  | Event.startEv audio_file now => startButton lyrics audio_file now
  | Event.pauseEv now => pauseButton now
  | Event.resumeEv now => resumeButton now
  | Event.markEv now => markButton lyrics now
  | Event.editEv edited_df => editTable edited_df

/-- Run a sequence of events from a state. -/
def runEvents (lyrics : List String) (evs : List Event) (s : Session) : Session :=
  evs.foldl (fun s e => applyEvent lyrics e s) s

/-- Run a sequence of consecutive Mark clicks at the given `time.time()`
readings. -/
def runMarks (lyrics : List String) (ts : List ℚ) (s : Session) : Session :=
  ts.foldl (fun s t => markButton lyrics t s) s

/-- The table produced by marking at clock readings `ts` against lyric lines
`ls` with clock anchor `a`: entry `i` is `⟨ts[i] - a, ts[i] - a + 2, ls[i]⟩`. -/
def markedEntries (a : ℚ) (ts : List ℚ) (ls : List String) : List TimestampEntry :=
  List.zipWith (fun t l => { start := t - a, stop := t - a + 2, lyric := l }) ts ls

/-- The "Idle" condition of the spec's state machine: no session has been
started (`start_time` is `None`). -/
def sessionIdle (s : Session) : Prop := s.start_time = none

/-- The "Paused" condition of the spec's state machine. -/
def sessionPausedState (s : Session) : Prop := s.is_paused = true

/-- The "recording-active" condition of the spec's state machine: a session
has been started and is not paused. -/
def recordingActive (s : Session) : Prop :=
  s.start_time.isSome = true ∧ s.is_paused = false

/-- The inductive invariant maintained by every event handler: a paused
session always has a started clock, and the cursor never exceeds the number
of loaded lyric lines. -/
def SessionInv (lyrics : List String) (s : Session) : Prop :=
  (s.is_paused = true → s.start_time ≠ none) ∧ s.current_line ≤ lyrics.length

/-! ## Helper lemmas -/

theorem pymod_nonneg (a : ℚ) {b : ℚ} (hb : 0 < b) : 0 ≤ pymod a b := by
  have h1 : ((⌊a / b⌋ : ℚ)) ≤ a / b := Int.floor_le _
  have h2 : ((⌊a / b⌋ : ℚ)) * b ≤ a / b * b := mul_le_mul_of_nonneg_right h1 hb.le
  rw [div_mul_cancel₀ _ hb.ne'] at h2
  unfold pymod
  linarith

theorem floor_div_natCast (q : ℚ) (hq : 0 ≤ q) (n : ℕ) :
    ⌊q / ((n : ℕ) : ℚ)⌋ = ((⌊q⌋₊ / n : ℕ) : ℤ) := by
  rw [← Nat.floor_div_nat q n,
    Int.natCast_floor_eq_floor (div_nonneg hq (Nat.cast_nonneg n))]

theorem format_time_eq_spec (q : ℚ) (hq : 0 ≤ q) : format_time q = format_time_spec q := by
  have hF : ((⌊q⌋₊ : ℕ) : ℤ) = ⌊q⌋ := Int.natCast_floor_eq_floor hq
  have h3600 : (3600 : ℚ) = ((3600 : ℕ) : ℚ) := by norm_num
  have h60 : (60 : ℚ) = ((60 : ℕ) : ℚ) := by norm_num
  have h1 : ⌊q / (3600 : ℚ)⌋ = ((⌊q⌋₊ / 3600 : ℕ) : ℤ) := by
    rw [h3600, floor_div_natCast q hq 3600]
  have hdiv60 : ⌊q / (60 : ℚ)⌋ = ((⌊q⌋₊ / 60 : ℕ) : ℤ) := by
    rw [h60, floor_div_natCast q hq 60]
  have hm60 : pymod q 60 = q - ((60 * ⌊q / 60⌋ : ℤ) : ℚ) := by
    unfold pymod; push_cast; ring
  have h3 : ⌊pymod q 60⌋ = ((⌊q⌋₊ % 60 : ℕ) : ℤ) := by
    rw [hm60, Int.floor_sub_int, ← hF, hdiv60]
    omega
  have hm3600 : pymod q 3600 = q - ((3600 * ⌊q / 3600⌋ : ℤ) : ℚ) := by
    unfold pymod; push_cast; ring
  have hmnn : 0 ≤ pymod q 3600 := pymod_nonneg q (by norm_num)
  have h2 : ⌊pymod q 3600 / 60⌋ = ((⌊q⌋₊ % 3600 / 60 : ℕ) : ℤ) := by
    have ha : ⌊pymod q 3600 / (60 : ℚ)⌋ = ((⌊pymod q 3600⌋₊ / 60 : ℕ) : ℤ) := by
      rw [h60, floor_div_natCast _ hmnn 60]
    have hb : ((⌊pymod q 3600⌋₊ : ℕ) : ℤ) = ⌊pymod q 3600⌋ :=
      Int.natCast_floor_eq_floor hmnn
    have hc : ⌊pymod q 3600⌋ = ⌊q⌋ - 3600 * ⌊q / 3600⌋ := by
      rw [hm3600, Int.floor_sub_int]
    have hbc := hb.trans hc
    rw [← hF, h1] at hbc
    have hd : ⌊pymod q 3600⌋₊ = ⌊q⌋₊ % 3600 := by omega
    rw [ha, hd]
  have he : pymod q 1 = q - ((⌊q⌋₊ : ℕ) : ℚ) := by
    unfold pymod
    rw [div_one, one_mul, natCast_floor_eq_intCast_floor hq]
  have h4 : ⌊pymod q 1 * 1000⌋ = ((⌊(q - ((⌊q⌋₊ : ℕ) : ℚ)) * 1000⌋₊ : ℕ) : ℤ) := by
    have hge : (0 : ℚ) ≤ (q - ((⌊q⌋₊ : ℕ) : ℚ)) * 1000 := by
      have hle : ((⌊q⌋₊ : ℕ) : ℚ) ≤ q := Nat.floor_le hq
      nlinarith
    rw [he, (Int.natCast_floor_eq_floor hge).symm]
  unfold format_time format_time_spec
  rw [h1, h2, h3, h4]

/-! ## C2 -/

/-- C2: `format_time` computes hours, minutes and seconds by integer
division/modulo on the whole-second part and milliseconds as
`floor(fractional_part * 1000)` with no rounding carry-over, for every
non-negative input; in particular `format_time 0 = "00:00:00,000"`,
`format_time 3661.234 = "01:01:01,234"`, and
`format_time 59.9999 = "00:00:59,999"` (truncated, never rounded up to the
next second). -/
theorem format_time_truncation :
    (∀ q : ℚ, 0 ≤ q → format_time q = format_time_spec q) ∧
    format_time 0 = "00:00:00,000" ∧
    format_time (3661.234 : ℚ) = "01:01:01,234" ∧
    format_time (59.9999 : ℚ) = "00:00:59,999" := by
  refine ⟨fun q hq => format_time_eq_spec q hq, ?_, ?_, ?_⟩
  · unfold format_time pymod; norm_num; rfl
  · unfold format_time pymod; norm_num; rfl
  · unfold format_time pymod; norm_num; rfl

/-- Witness for `format_time_truncation`: its universally quantified part
applied at the concrete input `7322.5`. -/
theorem format_time_truncation_witness :
    (0 : ℚ) ≤ 7322.5 ∧ format_time (7322.5 : ℚ) = format_time_spec (7322.5 : ℚ) :=
  ⟨by norm_num, format_time_truncation.1 (7322.5 : ℚ) (by norm_num)⟩

/-! ## C3 -/

/-- C3: `create_srt` emits, for the entry at 0-based table position `i`, the
block `"<i+1>\n<format_time start> --> <format_time end>\n<text>\n\n"`,
concatenated in table order with indices strictly sequential by position
(the index comes from the enumeration, never from the entries' time values);
in particular `create_srt` of the single entry
`{start := 1.5, end := 3.0, text := "Hello"}` equals
`"1\n00:00:01,500 --> 00:00:03,000\nHello\n\n"`, and `create_srt []` equals
`""`. -/
theorem create_srt_blocks :
    (∀ timestamps : List TimestampEntry,
        create_srt timestamps =
          String.join (timestamps.enum.map (fun p => srtBlock p.1 p.2))) ∧
    create_srt [{ start := 1.5, stop := 3, lyric := "Hello" }] =
      "1\n00:00:01,500 --> 00:00:03,000\nHello\n\n" ∧
    create_srt [] = "" := by
  refine ⟨fun timestamps => ?_, ?_, rfl⟩
  · simp only [create_srt, String.join, List.foldl_map]
  · unfold create_srt srtBlock format_time pymod
    simp only [List.enum, List.enumFrom, List.foldl_cons, List.foldl_nil]
    norm_num
    rfl

/-! ## C1 -/

theorem runMarks_append (lyrics : List String) (ts : List ℚ) :
    ∀ s : Session, truthy s.start_time = true → s.is_paused = false →
      s.current_line + ts.length ≤ lyrics.length →
      runMarks lyrics ts s =
        { s with
            timestamps := s.timestamps ++
              markedEntries (s.start_time.getD 0) ts (lyrics.drop s.current_line),
            current_line := s.current_line + ts.length } := by
  induction ts with
  | nil =>
    intro s h1 h2 h3
    simp [runMarks, markedEntries]
  | cons t ts ih =>
    intro s h1 h2 h3
    have hcur : s.current_line < lyrics.length := by
      simp only [List.length_cons] at h3
      omega
    have hstep : markButton lyrics t s =
        { s with
            timestamps := s.timestamps ++
              [{ start := t - s.start_time.getD 0, stop := t - s.start_time.getD 0 + 2,
                 lyric := lyrics.getD s.current_line "" }],
            current_line := s.current_line + 1 } := by
      unfold markButton
      rw [if_pos ⟨h1, h2, hcur⟩]
    have hrun : runMarks lyrics (t :: ts) s = runMarks lyrics ts (markButton lyrics t s) := rfl
    rw [hrun, hstep,
      ih _ (by simpa using h1) (by simp [h2])
        (by simp only [List.length_cons] at h3; simp; omega)]
    simp only [Session.mk.injEq, and_true, true_and]
    constructor
    · rw [List.drop_eq_getElem_cons hcur]
      simp only [markedEntries, List.zipWith_cons_cons, List.append_assoc,
        List.singleton_append, List.getD_eq_getElem lyrics "" hcur]
    · simp only [List.length_cons]
      omega

/-- C1: for non-empty `lines` of length `N`, after Start and then `N`
consecutive Mark clicks with strictly increasing clock readings and no pause,
the table has exactly `N` entries, entry `i` has text `lines[i]`, the start
values are strictly increasing, and every entry's `end` equals its `start`
plus 2.0.  (`t0 ≠ 0` reflects that `time.time()` is never the falsy float
`0.0`.) -/
theorem start_then_marks (lyrics : List String) (t0 : ℚ) (ts : List ℚ)
    (hne : lyrics ≠ []) (ht0 : t0 ≠ 0) (hlen : ts.length = lyrics.length)
    (hmono : ∀ (i : ℕ) (hi : i < ts.length) (j : ℕ) (hj : j < ts.length),
      i < j → ts.get ⟨i, hi⟩ < ts.get ⟨j, hj⟩) :
    (runMarks lyrics ts (startButton lyrics true t0 freshSession)).timestamps.length =
        lyrics.length ∧
    (∀ i : ℕ, i < lyrics.length →
      ((runMarks lyrics ts (startButton lyrics true t0 freshSession)).timestamps[i]?).map
          TimestampEntry.lyric = lyrics[i]?) ∧
    (∀ e ∈ (runMarks lyrics ts (startButton lyrics true t0 freshSession)).timestamps,
      e.stop = e.start + 2) ∧
    (∀ (i j : ℕ), i < j →
      ∀ e f : TimestampEntry,
        (runMarks lyrics ts (startButton lyrics true t0 freshSession)).timestamps[i]? = some e →
        (runMarks lyrics ts (startButton lyrics true t0 freshSession)).timestamps[j]? = some f →
        e.start < f.start) := by
  have hstart : startButton lyrics true t0 freshSession =
      { timestamps := [], current_line := 0, start_time := some t0,
        paused_time := none, is_paused := false } := by
    unfold startButton freshSession
    rw [if_pos ⟨hne, rfl⟩]
  have hS : runMarks lyrics ts (startButton lyrics true t0 freshSession) =
      { timestamps := markedEntries t0 ts lyrics, current_line := ts.length,
        start_time := some t0, paused_time := none, is_paused := false } := by
    rw [hstart, runMarks_append lyrics ts _ (by simp [truthy, ht0]) rfl (by simp [hlen])]
    simp
  rw [hS]
  dsimp only
  have hlen2 : (markedEntries t0 ts lyrics).length = lyrics.length := by
    simp [markedEntries, hlen]
  have hget : ∀ (i : ℕ) (h : i < (markedEntries t0 ts lyrics).length),
      (markedEntries t0 ts lyrics)[i] =
        { start := ts.get ⟨i, by rw [hlen]; omega⟩ - t0,
          stop := ts.get ⟨i, by rw [hlen]; omega⟩ - t0 + 2,
          lyric := lyrics.get ⟨i, by omega⟩ } := by
    intro i h
    have h1 : i < ts.length := by rw [hlen]; omega
    have h2 : i < lyrics.length := by omega
    simp only [markedEntries, List.getElem_zipWith, List.get_eq_getElem]
  refine ⟨hlen2, ?_, ?_, ?_⟩
  · intro i hi
    have h : i < (markedEntries t0 ts lyrics).length := by omega
    rw [List.getElem?_eq_getElem h, List.getElem?_eq_getElem hi, hget i h]
    simp
  · intro e he
    obtain ⟨i, h, rfl⟩ := List.mem_iff_getElem.mp he
    rw [hget i h]
  · intro i j hij e f he hf
    have hjl : j < (markedEntries t0 ts lyrics).length := by
      by_contra hcon
      rw [List.getElem?_eq_none (by omega)] at hf
      exact Option.noConfusion hf
    have hil : i < (markedEntries t0 ts lyrics).length := by omega
    rw [List.getElem?_eq_getElem hil, hget i hil] at he
    rw [List.getElem?_eq_getElem hjl, hget j hjl] at hf
    have hmo := hmono i (by omega) j (by omega) hij
    cases he
    cases hf
    simpa using hmo

/-- Witness for `start_then_marks`: two lines, Start at time 1, Marks at
times 2 and 3. -/
theorem start_then_marks_witness :
    (runMarks ["a", "b"] [2, 3]
        (startButton ["a", "b"] true 1 freshSession)).timestamps.length = 2 :=
  (start_then_marks ["a", "b"] 1 [2, 3] (by decide) (by norm_num) rfl
    (by decide)).1

/-! ## C4 -/

theorem truthy_some {x : ℚ} (hx : x ≠ 0) : truthy (some x) = true := by
  simp [truthy, hx]

theorem run5_eval (lyrics : List String) (hl : 2 ≤ lyrics.length) (t0 t1 t2 t3 t4 : ℚ)
    (h0 : t0 ≠ 0) (h1 : t0 + (t3 - t2) ≠ 0) :
    runEvents lyrics [Event.startEv true t0, Event.markEv t1, Event.pauseEv t2,
        Event.resumeEv t3, Event.markEv t4] freshSession =
      { timestamps := [
          { start := t1 - t0, stop := t1 - t0 + 2, lyric := lyrics.getD 0 "" },
          { start := t4 - (t0 + (t3 - t2)), stop := t4 - (t0 + (t3 - t2)) + 2,
            lyric := lyrics.getD 1 "" }],
        current_line := 2, start_time := some (t0 + (t3 - t2)),
        paused_time := some t2, is_paused := false } := by
  have hne : lyrics ≠ [] := by
    intro h
    rw [h] at hl
    simp at hl
  have hlt0 : 0 < lyrics.length := by omega
  have hlt1 : 1 < lyrics.length := by omega
  unfold runEvents
  simp [applyEvent, startButton, markButton, pauseButton, resumeButton, freshSession,
    truthy_some h0, truthy_some h1, hne, hlt0, hlt1]

/-- C4: pause/resume round trip.  A run that Starts at `t0`, Marks at `t1`,
Pauses at `t2`, stays paused for `D ≥ 0`, Resumes at `t2 + D` and Marks again
a further `w` later records the same second start value whatever `D` is: for
two runs differing only in the pause duration (`D` vs `D'`), the second
mark's recorded `start` is identical, i.e. it reflects only active
(non-paused) time. -/
theorem pause_resume_roundtrip (lyrics : List String) (hl : 2 ≤ lyrics.length)
    (t0 t1 t2 w D D' : ℚ) (ht0 : 0 < t0) (hD : 0 ≤ D) (hD' : 0 ≤ D') :
    ((runEvents lyrics [Event.startEv true t0, Event.markEv t1, Event.pauseEv t2,
        Event.resumeEv (t2 + D), Event.markEv (t2 + D + w)] freshSession).timestamps.map
        TimestampEntry.start)[1]? =
    ((runEvents lyrics [Event.startEv true t0, Event.markEv t1, Event.pauseEv t2,
        Event.resumeEv (t2 + D'), Event.markEv (t2 + D' + w)] freshSession).timestamps.map
        TimestampEntry.start)[1]? := by
  rw [run5_eval lyrics hl t0 t1 t2 (t2 + D) (t2 + D + w) ht0.ne'
        (ne_of_gt (by linarith)),
      run5_eval lyrics hl t0 t1 t2 (t2 + D') (t2 + D' + w) ht0.ne'
        (ne_of_gt (by linarith))]
  simp only [List.map_cons, List.map_nil]
  norm_num
  ring

/-- Witness for `pause_resume_roundtrip`: two lines, Start at 1, Mark at 2,
Pause at 3, pause durations 5 vs 0, second Mark 4 seconds after Resume. -/
theorem pause_resume_roundtrip_witness :
    ((runEvents ["a", "b"] [Event.startEv true 1, Event.markEv 2, Event.pauseEv 3,
        Event.resumeEv (3 + 5), Event.markEv (3 + 5 + 4)] freshSession).timestamps.map
        TimestampEntry.start)[1]? =
    ((runEvents ["a", "b"] [Event.startEv true 1, Event.markEv 2, Event.pauseEv 3,
        Event.resumeEv (3 + 0), Event.markEv (3 + 0 + 4)] freshSession).timestamps.map
        TimestampEntry.start)[1]? :=
  pause_resume_roundtrip ["a", "b"] (by decide) 1 2 3 4 5 0 (by norm_num)
    (by norm_num) le_rfl

/-! ## C5 -/

/-- Counterexample to C5 as stated: pressing Start with an empty line list is
a complete no-op (guard `lyrics and audio_file` fails), so it does NOT empty
the IntervalTable (nor transition to Exhausted) as the claim requires: here a
previously recorded entry survives. -/
theorem start_empty_lines_counterexample :
    (startButton [] true 5
        { timestamps := [{ start := 0, stop := 2, lyric := "x" }], current_line := 1,
          start_time := some 1, paused_time := none, is_paused := false }).timestamps ≠
      [] := by
  decide

/-- C5 amended: Start/Restart resets the table to empty, the cursor to 0, the
clock anchor to `now` and clears the paused flag — discarding all previously
recorded entries — but only when the line list is non-empty (and an audio
file is loaded); with an empty line list it is a no-op that leaves the whole
session state (including the table) unchanged, and Mark is then always a
no-op as well. -/
theorem startButton_reset_spec (lyrics : List String) (audio_file : Bool) (now : ℚ)
    (s : Session) :
    (lyrics ≠ [] → audio_file = true →
      startButton lyrics audio_file now s =
        { s with timestamps := [], current_line := 0, start_time := some now,
                 is_paused := false }) ∧
    (lyrics = [] → startButton lyrics audio_file now s = s) ∧
    (lyrics = [] → markButton lyrics now s = s) := by
  refine ⟨fun h1 h2 => ?_, fun h => ?_, fun h => ?_⟩
  · unfold startButton
    rw [if_pos ⟨h1, h2⟩]
  · unfold startButton
    rw [if_neg]
    rintro ⟨h1, -⟩
    exact h1 h
  · unfold markButton
    rw [if_neg]
    rintro ⟨-, -, hlt⟩
    rw [h] at hlt
    simp at hlt

/-- Witness for `startButton_reset_spec`: a first Start on one line from the
fresh session. -/
theorem startButton_reset_spec_witness :
    startButton ["a"] true 1 freshSession =
      { freshSession with
        timestamps := [], current_line := 0, start_time := some 1,
        is_paused := false } :=
  (startButton_reset_spec ["a"] true 1 freshSession).1 (by decide) rfl

/-! ## C6 -/

/-- Counterexample to C6 as stated: in the Exhausted state (cursor equal to
the number of lines — here `1 = len ["a"]` — with a started, unpaused clock),
Pause is NOT a no-op: the handler only checks `start_time` truthiness and the
paused flag, so it fires and changes the session state. -/
theorem pause_exhausted_counterexample :
    pauseButton 5
        { timestamps := [], current_line := (["a"] : List String).length,
          start_time := some 1, paused_time := none, is_paused := false } ≠
      { timestamps := [], current_line := (["a"] : List String).length,
        start_time := some 1, paused_time := none, is_paused := false } := by
  decide

/-- C6 amended: Pause fires whenever `start_time` is truthy and the session
is not already paused — i.e. from Running and also from Exhausted — and is a
silent no-op from Idle (no truthy `start_time`) and from Paused; Resume fires
only when paused and is a silent no-op in every other state.  Neither ever
throws. -/
theorem pause_resume_state_spec (now : ℚ) (s : Session) :
    (truthy s.start_time = false → pauseButton now s = s) ∧
    (s.is_paused = true → pauseButton now s = s) ∧
    (truthy s.start_time = true → s.is_paused = false →
      pauseButton now s = { s with paused_time := some now, is_paused := true }) ∧
    (s.is_paused = false → resumeButton now s = s) := by
  refine ⟨fun h => ?_, fun h => ?_, fun h1 h2 => ?_, fun h => ?_⟩
  · simp [pauseButton, h]
  · simp [pauseButton, h]
  · simp [pauseButton, h1, h2]
  · simp [resumeButton, h]

/-- Witness for `pause_resume_state_spec`: Pause and Resume are no-ops on the
fresh (Idle, unpaused) session. -/
theorem pause_resume_state_spec_witness :
    pauseButton 1 freshSession = freshSession ∧
      resumeButton 1 freshSession = freshSession :=
  ⟨(pause_resume_state_spec 1 freshSession).1 rfl,
   (pause_resume_state_spec 1 freshSession).2.2.2 rfl⟩

/-! ## C7 -/

/-- C7: Mark with the cursor already at the number of loaded lines (the
Exhausted state), or with no lines loaded at all, leaves the session —
IntervalTable and cursor included — unchanged. -/
theorem mark_noop (lyrics : List String) (now : ℚ) (s : Session)
    (h : s.current_line = lyrics.length ∨ lyrics = []) :
    markButton lyrics now s = s := by
  unfold markButton
  rw [if_neg]
  rintro ⟨-, -, hlt⟩
  rcases h with h | h
  · omega
  · rw [h] at hlt
    simp at hlt

/-- Witness for `mark_noop`: Mark after the single line has been exhausted. -/
theorem mark_noop_witness :
    markButton ["a"] 7
        { timestamps := [], current_line := 1, start_time := some 1,
          paused_time := none, is_paused := false } =
      { timestamps := [], current_line := 1, start_time := some 1,
        paused_time := none, is_paused := false } :=
  mark_noop ["a"] 7 _ (Or.inl rfl)

/-! ## C8 -/

theorem truthy_ne_none {o : Option ℚ} (h : truthy o = true) : o ≠ none := by
  cases o with
  | none => simp [truthy] at h
  | some x => simp

theorem inv_step (lyrics : List String) (e : Event) (s : Session)
    (h : SessionInv lyrics s) : SessionInv lyrics (applyEvent lyrics e s) := by
  obtain ⟨h1, h2⟩ := h
  cases e with
  | startEv audio_file now =>
    simp only [applyEvent]
    unfold startButton
    split
    · exact ⟨by simp, by simp⟩
    · exact ⟨h1, h2⟩
  | pauseEv now =>
    simp only [applyEvent]
    unfold pauseButton
    split
    · next ht =>
      split
      · exact ⟨fun _ => truthy_ne_none ht, h2⟩
      · exact ⟨h1, h2⟩
    · exact ⟨h1, h2⟩
  | resumeEv now =>
    simp only [applyEvent]
    unfold resumeButton
    split
    · exact ⟨by simp, h2⟩
    · exact ⟨h1, h2⟩
  | markEv now =>
    simp only [applyEvent]
    unfold markButton
    split
    · next hc =>
      refine ⟨h1, ?_⟩
      have h3 := hc.2.2
      show s.current_line + 1 ≤ lyrics.length
      omega
    · exact ⟨h1, h2⟩
  | editEv edited_df =>
    simp only [applyEvent]
    unfold editTable
    split
    · exact ⟨h1, h2⟩
    · exact ⟨h1, h2⟩

theorem inv_run (lyrics : List String) (evs : List Event) :
    ∀ s : Session, SessionInv lyrics s → SessionInv lyrics (runEvents lyrics evs s) := by
  induction evs with
  | nil => exact fun s h => h
  | cons e evs ih => exact fun s h => ih _ (inv_step lyrics e s h)

/-- C8: over every sequence of events (Start, Pause, Resume, Mark, external
table edit) from the fresh session against a fixed loaded line list, the
cursor never exceeds the number of lines, and at most one of
{recording-active, paused, idle} holds. -/
theorem cursor_bound_and_state_exclusive (lyrics : List String) (evs : List Event) :
    (runEvents lyrics evs freshSession).current_line ≤ lyrics.length ∧
    ¬(sessionIdle (runEvents lyrics evs freshSession) ∧
      sessionPausedState (runEvents lyrics evs freshSession)) ∧
    ¬(sessionIdle (runEvents lyrics evs freshSession) ∧
      recordingActive (runEvents lyrics evs freshSession)) ∧
    ¬(recordingActive (runEvents lyrics evs freshSession) ∧
      sessionPausedState (runEvents lyrics evs freshSession)) := by
  have h := inv_run lyrics evs freshSession ⟨by simp [freshSession], by simp [freshSession]⟩
  obtain ⟨h1, h2⟩ := h
  unfold sessionIdle sessionPausedState recordingActive
  refine ⟨h2, ?_, ?_, ?_⟩
  · rintro ⟨hi, hp⟩
    exact h1 hp hi
  · rintro ⟨hi, ha, -⟩
    rw [hi] at ha
    simp at ha
  · rintro ⟨⟨-, ha⟩, hp⟩
    rw [ha] at hp
    exact Bool.noConfusion hp

/-! ## C9 -/

/-- C9: replacing the IntervalTable wholesale with an externally supplied
table leaves every other part of the session state unchanged: the cursor, the
clock anchor, the pause anchor and the paused flag (and hence the
state-machine state they encode) are all unaffected. -/
theorem editTable_frame (edited_df : List TimestampEntry) (s : Session) :
    (editTable edited_df s).current_line = s.current_line ∧
    (editTable edited_df s).start_time = s.start_time ∧
    (editTable edited_df s).paused_time = s.paused_time ∧
    (editTable edited_df s).is_paused = s.is_paused := by
  unfold editTable
  split
  · exact ⟨rfl, rfl, rfl, rfl⟩
  · exact ⟨rfl, rfl, rfl, rfl⟩

/-! ## C10 -/

/-- C10: Start/Restart takes effect only when both a non-empty line list and
an audio file are loaded; with lines but no audio file, or audio but no
lines, the click leaves the whole session state — table, cursor, clock
anchor, paused flag — unchanged. -/
theorem start_requires_lines_and_audio (lyrics : List String) (audio_file : Bool)
    (now : ℚ) (s : Session) (h : lyrics = [] ∨ audio_file = false) :
    startButton lyrics audio_file now s = s := by
  unfold startButton
  rw [if_neg]
  rintro ⟨h1, h2⟩
  rcases h with h | h
  · exact h1 h
  · rw [h] at h2
    exact Bool.noConfusion h2

/-- Witness for `start_requires_lines_and_audio`: lines loaded but no audio
file. -/
theorem start_requires_lines_and_audio_witness :
    startButton ["a"] false 1 freshSession = freshSession :=
  start_requires_lines_and_audio ["a"] false 1 freshSession (Or.inr rfl)
